import Mathlib

/-!
Verification of the CZLib header shim (`Sources/CZLib/include/shim.h`).

The source file is a C preprocessor shim.  We embed the relevant fragment of
the C preprocessor shallowly: a preprocessing state holds the table of defined
macros (name, optional numeric value) together with a trace of events (headers
included, macros defined, in order), and a directive language covers exactly
the constructs the shim uses: object-like `#define`, `#import`/`#include` of a
header, `#ifdef`/`#ifndef` blocks, sequencing, and (for the failure model)
`#error`.  The shim itself is the directive term `shimSource`, translated
line by line from the source file.
-/

namespace ZlibShim

/-- An observable preprocessing event: a header inclusion or a macro
definition (`none` value models an object-like define with empty body). -/
inductive Event where
  | included (header : String)
  | defined (name : String) (value : Option Nat)
deriving DecidableEq

/-- Preprocessing state: the macro table (later entries shadowed by earlier
ones via `List.lookup`) and the ordered trace of events so far. -/
structure PPState where
  defs : List (String × Option Nat)
  trace : List Event
deriving DecidableEq

/-- Whether macro `n` is currently defined. -/
def isDefined (n : String) (s : PPState) : Bool :=
  (s.defs.lookup n).isSome

/-- The value of macro `n`: `none` if undefined, `some v` if defined with
body `v` (itself `none` for an empty body). -/
def valueOf (n : String) (s : PPState) : Option (Option Nat) :=
  s.defs.lookup n

/-- Effect of `#define n v`. -/
def addDefine (n : String) (v : Option Nat) (s : PPState) : PPState :=
  { defs := (n, v) :: s.defs, trace := s.trace ++ [Event.defined n v] }

/-- Effect of `#import <h>` / `#include <h>`: records that the header's
declarations were made visible at this point. -/
def addInclude (h : String) (s : PPState) : PPState :=
  { defs := s.defs, trace := s.trace ++ [Event.included h] }

/-- The platform discriminator used by the shim: `#ifdef __unix__`. -/
def unixLike (s : PPState) : Bool :=
  isDefined "__unix__" s

/-- The preprocessor directive fragment the shim uses. -/
inductive Directive where
  | define (n : String) (v : Option Nat)
  | includeHeader (h : String)
  | seq (a b : Directive)
  | ifdefBlock (n : String) (body : Directive)
  | ifndefBlock (n : String) (body : Directive)
  | errorDirective (msg : String)

/-- Run a directive on a state; `#error` aborts preprocessing with a
message, everything else succeeds. -/
def runDir : Directive → PPState → Except String PPState
  | Directive.define n v, s => Except.ok (addDefine n v s)
  | Directive.includeHeader h, s => Except.ok (addInclude h s)
  | Directive.seq a b, s =>
      match runDir a s with
      | Except.ok s2 => runDir b s2
      | Except.error e => Except.error e
  | Directive.ifdefBlock n body, s =>
      if isDefined n s then runDir body s else Except.ok s
  | Directive.ifndefBlock n body, s =>
      if isDefined n s then Except.ok s else runDir body s
  | Directive.errorDirective _, _ => Except.error "error directive"

/-- `shim.h`, translated directive by directive from the source:

```
#ifndef zlib_shim_h
#define zlib_shim_h
#ifdef __unix__ // not yet working on windows
#import <stdio.h>
#import <zlib.h>
#ifndef _LARGEFILE64_SOURCE
#  define _LARGEFILE64_SOURCE 1
#endif
#ifndef _FILE_OFFSET_BITS
#  define _FILE_OFFSET_BITS 64
#endif
#ifndef _LFS64_LARGEFILE
#  define _LFS64_LARGEFILE 1
#endif
#endif
#endif
``` -/
def shimSource : Directive :=
  Directive.ifndefBlock "zlib_shim_h"
    (Directive.seq (Directive.define "zlib_shim_h" none)
      (Directive.ifdefBlock "__unix__"
        (Directive.seq (Directive.includeHeader "stdio.h")
          (Directive.seq (Directive.includeHeader "zlib.h")
            (Directive.seq
              (Directive.ifndefBlock "_LARGEFILE64_SOURCE"
                (Directive.define "_LARGEFILE64_SOURCE" (some 1)))
              (Directive.seq
                (Directive.ifndefBlock "_FILE_OFFSET_BITS"
                  (Directive.define "_FILE_OFFSET_BITS" (some 64)))
                (Directive.ifndefBlock "_LFS64_LARGEFILE"
                  (Directive.define "_LFS64_LARGEFILE" (some 1)))))))))

/-- Processing the shim once (the total function extracted from `runDir`,
which never fails on `shimSource`). -/
def processShim (s : PPState) : PPState :=
  match runDir shimSource s with
  | Except.ok s2 => s2
  | Except.error _ => s

/-- The three large-file feature flags the shim configures. -/
def largeFileFlags : List String :=
  ["_LARGEFILE64_SOURCE", "_FILE_OFFSET_BITS", "_LFS64_LARGEFILE"]

/-- A directive containing no `#error`. -/
def errorFree : Directive → Bool
  | Directive.define _ _ => true
  | Directive.includeHeader _ => true
  | Directive.seq a b => errorFree a && errorFree b
  | Directive.ifdefBlock _ body => errorFree body
  | Directive.ifndefBlock _ body => errorFree body
  | Directive.errorDirective _ => false

/-- `if isDefined n s then s else addDefine n (some v) s`: the semantic
shape of the shim's `#ifndef n / #define n v / #endif` blocks, used to state
the evaluation lemma for `processShim`. -/
def setFlagDefault (n : String) (v : Nat) (s : PPState) : PPState :=
  if isDefined n s then s else addDefine n (some v) s

/-- Unix-like initial state with no macros pre-defined except `__unix__`. -/
def sFreshUnix : PPState :=
  { defs := [("__unix__", none)], trace := [] }

/-- Unix-like initial state with `_FILE_OFFSET_BITS` pre-defined as 32. -/
def sOffsetBits32 : PPState :=
  { defs := [("__unix__", none), ("_FILE_OFFSET_BITS", some 32)], trace := [] }

/-- Non-Unix initial state with nothing defined. -/
def sNonUnix : PPState :=
  { defs := [], trace := [] }

example : unixLike sFreshUnix = true := by decide

/-! ### Basic lemmas about the state operations -/

lemma valueOf_addInclude (n h : String) (s : PPState) :
    valueOf n (addInclude h s) = valueOf n s := rfl

lemma isDefined_addInclude (n h : String) (s : PPState) :
    isDefined n (addInclude h s) = isDefined n s := rfl

lemma valueOf_addDefine_self (n : String) (v : Option Nat) (s : PPState) :
    valueOf n (addDefine n v s) = some v := by
  simp [valueOf, addDefine, List.lookup]

lemma valueOf_addDefine_ne {n m : String} (hnm : n ≠ m) (v : Option Nat)
    (s : PPState) : valueOf n (addDefine m v s) = valueOf n s := by
  have hb : (n == m) = false := beq_eq_false_iff_ne.mpr hnm
  simp [valueOf, addDefine, List.lookup, hb]

lemma isDefined_addDefine_self (n : String) (v : Option Nat) (s : PPState) :
    isDefined n (addDefine n v s) = true := by
  simp [isDefined, addDefine, List.lookup]

lemma isDefined_addDefine_ne {n m : String} (hnm : n ≠ m) (v : Option Nat)
    (s : PPState) : isDefined n (addDefine m v s) = isDefined n s := by
  have hb : (n == m) = false := beq_eq_false_iff_ne.mpr hnm
  simp [isDefined, addDefine, List.lookup, hb]

lemma trace_addDefine (n : String) (v : Option Nat) (s : PPState) :
    (addDefine n v s).trace = s.trace ++ [Event.defined n v] := rfl

lemma trace_addInclude (h : String) (s : PPState) :
    (addInclude h s).trace = s.trace ++ [Event.included h] := rfl

lemma valueOf_setFlagDefault_ne {n m : String} (hnm : n ≠ m) (v : Nat)
    (s : PPState) : valueOf n (setFlagDefault m v s) = valueOf n s := by
  unfold setFlagDefault
  split
  · rfl
  · exact valueOf_addDefine_ne hnm _ s

lemma isDefined_setFlagDefault_ne {n m : String} (hnm : n ≠ m) (v : Nat)
    (s : PPState) : isDefined n (setFlagDefault m v s) = isDefined n s := by
  unfold setFlagDefault
  split
  · rfl
  · exact isDefined_addDefine_ne hnm _ s

lemma valueOf_setFlagDefault_defined {n : String} {s : PPState}
    (hd : isDefined n s = true) (v : Nat) :
    valueOf n (setFlagDefault n v s) = valueOf n s := by
  simp [setFlagDefault, hd]

lemma valueOf_setFlagDefault_undefined {n : String} {s : PPState}
    (hd : isDefined n s = false) (v : Nat) :
    valueOf n (setFlagDefault n v s) = some (some v) := by
  simp [setFlagDefault, hd, valueOf_addDefine_self]

lemma isDefined_setFlagDefault_self (n : String) (v : Nat) (s : PPState) :
    isDefined n (setFlagDefault n v s) = true := by
  unfold setFlagDefault
  split
  · assumption
  · exact isDefined_addDefine_self n _ s

lemma trace_setFlagDefault (n : String) (v : Nat) (s : PPState) :
    (setFlagDefault n v s).trace =
      s.trace ++ (if isDefined n s then [] else [Event.defined n (some v)]) := by
  unfold setFlagDefault
  split <;> simp [trace_addDefine]

lemma isDefined_eq_isSome_valueOf (n : String) (s : PPState) :
    isDefined n s = (valueOf n s).isSome := rfl

/-! ### Evaluating the shim symbolically -/

/-- The state reached on the Unix-like path, starting from the state right
after the include guard was defined. -/
def unixBody (s : PPState) : PPState :=
  setFlagDefault "_LFS64_LARGEFILE" 1
    (setFlagDefault "_FILE_OFFSET_BITS" 64
      (setFlagDefault "_LARGEFILE64_SOURCE" 1
        (addInclude "zlib.h" (addInclude "stdio.h" s))))

lemma runDir_define_eq (n : String) (v : Option Nat) (s : PPState) :
    runDir (Directive.define n v) s = Except.ok (addDefine n v s) := rfl

lemma runDir_includeHeader_eq (h : String) (s : PPState) :
    runDir (Directive.includeHeader h) s = Except.ok (addInclude h s) := rfl

lemma runDir_ifdef_eq (n : String) (b : Directive) (s : PPState) :
    runDir (Directive.ifdefBlock n b) s =
      if isDefined n s then runDir b s else Except.ok s := rfl

lemma runDir_ifndef_eq (n : String) (b : Directive) (s : PPState) :
    runDir (Directive.ifndefBlock n b) s =
      if isDefined n s then Except.ok s else runDir b s := rfl

lemma runDir_seq_ok {a b : Directive} {s s1 : PPState}
    (ha : runDir a s = Except.ok s1) :
    runDir (Directive.seq a b) s = runDir b s1 := by
  rw [show runDir (Directive.seq a b) s =
        (match runDir a s with
          | Except.ok s2 => runDir b s2
          | Except.error e => Except.error e) from rfl, ha]

lemma runDir_flagBlock (n : String) (v : Nat) (s : PPState) :
    runDir (Directive.ifndefBlock n (Directive.define n (some v))) s =
      Except.ok (setFlagDefault n v s) := by
  unfold setFlagDefault
  by_cases h : isDefined n s <;> simp [runDir_ifndef_eq, runDir_define_eq, h]

lemma runDir_shim_eq (s : PPState) :
    runDir shimSource s = Except.ok
      (if isDefined "zlib_shim_h" s then s
       else if unixLike s then unixBody (addDefine "zlib_shim_h" none s)
       else addDefine "zlib_shim_h" none s) := by
  have hu : isDefined "__unix__" (addDefine "zlib_shim_h" none s)
      = unixLike s := by
    unfold unixLike
    exact isDefined_addDefine_ne (by decide) _ s
  by_cases h1 : isDefined "zlib_shim_h" s
  · unfold shimSource
    rw [runDir_ifndef_eq, if_pos h1, if_pos h1]
  · by_cases h2 : unixLike s
    · unfold shimSource
      rw [runDir_ifndef_eq, if_neg h1, runDir_seq_ok (runDir_define_eq _ _ _),
        runDir_ifdef_eq, hu, if_pos h2,
        runDir_seq_ok (runDir_includeHeader_eq _ _),
        runDir_seq_ok (runDir_includeHeader_eq _ _),
        runDir_seq_ok (runDir_flagBlock _ _ _),
        runDir_seq_ok (runDir_flagBlock _ _ _),
        runDir_flagBlock, if_neg h1, if_pos h2]
      rfl
    · unfold shimSource
      rw [runDir_ifndef_eq, if_neg h1, runDir_seq_ok (runDir_define_eq _ _ _),
        runDir_ifdef_eq, hu, if_neg h2, if_neg h1, if_neg h2]

lemma processShim_char (s : PPState) :
    processShim s =
      (if isDefined "zlib_shim_h" s then s
       else if unixLike s then unixBody (addDefine "zlib_shim_h" none s)
       else addDefine "zlib_shim_h" none s) := by
  unfold processShim
  rw [runDir_shim_eq]

lemma processShim_of_guard_defined {s : PPState}
    (h : isDefined "zlib_shim_h" s = true) : processShim s = s := by
  rw [processShim_char, if_pos h]

lemma isDefined_guard_processShim (s : PPState) :
    isDefined "zlib_shim_h" (processShim s) = true := by
  rw [processShim_char]
  by_cases h1 : isDefined "zlib_shim_h" s
  · simp [h1]
  · by_cases h2 : unixLike s
    · simp only [h1, h2, if_false, if_true, Bool.false_eq_true, unixBody]
      rw [isDefined_setFlagDefault_ne (by decide),
        isDefined_setFlagDefault_ne (by decide),
        isDefined_setFlagDefault_ne (by decide),
        isDefined_addInclude, isDefined_addInclude]
      exact isDefined_addDefine_self _ _ _
    · simp only [h1, h2, if_false, Bool.false_eq_true]
      exact isDefined_addDefine_self _ _ _

lemma isDefined_prelim {n : String} (hn : n ≠ "zlib_shim_h") (s : PPState) :
    isDefined n
      (addInclude "zlib.h" (addInclude "stdio.h" (addDefine "zlib_shim_h" none s)))
      = isDefined n s := by
  rw [isDefined_addInclude, isDefined_addInclude, isDefined_addDefine_ne hn]

lemma valueOf_prelim {n : String} (hn : n ≠ "zlib_shim_h") (s : PPState) :
    valueOf n
      (addInclude "zlib.h" (addInclude "stdio.h" (addDefine "zlib_shim_h" none s)))
      = valueOf n s := by
  rw [valueOf_addInclude, valueOf_addInclude, valueOf_addDefine_ne hn]

lemma valueOf_unixBody_L64 (s : PPState) :
    valueOf "_LARGEFILE64_SOURCE" (unixBody (addDefine "zlib_shim_h" none s)) =
      if isDefined "_LARGEFILE64_SOURCE" s then valueOf "_LARGEFILE64_SOURCE" s
      else some (some 1) := by
  unfold unixBody
  rw [valueOf_setFlagDefault_ne (by decide), valueOf_setFlagDefault_ne (by decide)]
  by_cases h : isDefined "_LARGEFILE64_SOURCE" s
  · rw [if_pos h,
      valueOf_setFlagDefault_defined (by rw [isDefined_prelim (by decide)]; exact h),
      valueOf_prelim (by decide)]
  · rw [if_neg h, valueOf_setFlagDefault_undefined
      (by rw [isDefined_prelim (by decide)]; exact Bool.not_eq_true _ ▸ eq_false_of_ne_true h)]

lemma valueOf_unixBody_FOB (s : PPState) :
    valueOf "_FILE_OFFSET_BITS" (unixBody (addDefine "zlib_shim_h" none s)) =
      if isDefined "_FILE_OFFSET_BITS" s then valueOf "_FILE_OFFSET_BITS" s
      else some (some 64) := by
  unfold unixBody
  rw [valueOf_setFlagDefault_ne (by decide)]
  by_cases h : isDefined "_FILE_OFFSET_BITS" s
  · rw [if_pos h,
      valueOf_setFlagDefault_defined
        (by rw [isDefined_setFlagDefault_ne (by decide), isDefined_prelim (by decide)];
            exact h),
      valueOf_setFlagDefault_ne (by decide), valueOf_prelim (by decide)]
  · rw [if_neg h, valueOf_setFlagDefault_undefined
      (by rw [isDefined_setFlagDefault_ne (by decide), isDefined_prelim (by decide)]
          exact Bool.not_eq_true _ ▸ eq_false_of_ne_true h)]

lemma valueOf_unixBody_LFS64 (s : PPState) :
    valueOf "_LFS64_LARGEFILE" (unixBody (addDefine "zlib_shim_h" none s)) =
      if isDefined "_LFS64_LARGEFILE" s then valueOf "_LFS64_LARGEFILE" s
      else some (some 1) := by
  unfold unixBody
  by_cases h : isDefined "_LFS64_LARGEFILE" s
  · rw [if_pos h,
      valueOf_setFlagDefault_defined
        (by rw [isDefined_setFlagDefault_ne (by decide),
              isDefined_setFlagDefault_ne (by decide), isDefined_prelim (by decide)];
            exact h),
      valueOf_setFlagDefault_ne (by decide), valueOf_setFlagDefault_ne (by decide),
      valueOf_prelim (by decide)]
  · rw [if_neg h, valueOf_setFlagDefault_undefined
      (by rw [isDefined_setFlagDefault_ne (by decide),
            isDefined_setFlagDefault_ne (by decide), isDefined_prelim (by decide)]
          exact Bool.not_eq_true _ ▸ eq_false_of_ne_true h)]

lemma valueOf_unixBody_other {n : String} (hg : n ≠ "zlib_shim_h")
    (h1 : n ≠ "_LARGEFILE64_SOURCE") (h2 : n ≠ "_FILE_OFFSET_BITS")
    (h3 : n ≠ "_LFS64_LARGEFILE") (s : PPState) :
    valueOf n (unixBody (addDefine "zlib_shim_h" none s)) = valueOf n s := by
  unfold unixBody
  rw [valueOf_setFlagDefault_ne h3, valueOf_setFlagDefault_ne h2,
    valueOf_setFlagDefault_ne h1, valueOf_prelim hg]

lemma trace_unixBody (s : PPState) :
    (unixBody (addDefine "zlib_shim_h" none s)).trace =
      s.trace ++ [Event.defined "zlib_shim_h" none,
        Event.included "stdio.h", Event.included "zlib.h"]
      ++ (if isDefined "_LARGEFILE64_SOURCE" s then []
          else [Event.defined "_LARGEFILE64_SOURCE" (some 1)])
      ++ (if isDefined "_FILE_OFFSET_BITS" s then []
          else [Event.defined "_FILE_OFFSET_BITS" (some 64)])
      ++ (if isDefined "_LFS64_LARGEFILE" s then []
          else [Event.defined "_LFS64_LARGEFILE" (some 1)]) := by
  unfold unixBody
  rw [trace_setFlagDefault, trace_setFlagDefault, trace_setFlagDefault,
    trace_addInclude, trace_addInclude, trace_addDefine,
    isDefined_prelim (by decide),
    isDefined_setFlagDefault_ne (by decide), isDefined_prelim (by decide),
    isDefined_setFlagDefault_ne (by decide),
    isDefined_setFlagDefault_ne (by decide), isDefined_prelim (by decide)]
  simp [List.append_assoc]

lemma processShim_trace (s : PPState) :
    (processShim s).trace =
      s.trace ++
        (if isDefined "zlib_shim_h" s then []
         else if unixLike s then
           [Event.defined "zlib_shim_h" none,
             Event.included "stdio.h", Event.included "zlib.h"]
           ++ (if isDefined "_LARGEFILE64_SOURCE" s then []
               else [Event.defined "_LARGEFILE64_SOURCE" (some 1)])
           ++ (if isDefined "_FILE_OFFSET_BITS" s then []
               else [Event.defined "_FILE_OFFSET_BITS" (some 64)])
           ++ (if isDefined "_LFS64_LARGEFILE" s then []
               else [Event.defined "_LFS64_LARGEFILE" (some 1)])
         else [Event.defined "zlib_shim_h" none]) := by
  rw [processShim_char]
  by_cases h1 : isDefined "zlib_shim_h" s
  · simp [h1]
  · by_cases h2 : unixLike s
    · simp only [h1, h2, Bool.false_eq_true, if_false, if_true]
      rw [trace_unixBody]
      simp [List.append_assoc]
    · simp only [h1, h2, Bool.false_eq_true, if_false]
      rw [trace_addDefine]

lemma runDir_isOk_of_errorFree (d : Directive) (hd : errorFree d = true) :
    ∀ s : PPState, ∃ s2, runDir d s = Except.ok s2 := by
  induction d with
  | define n v => intro s; exact ⟨_, rfl⟩
  | includeHeader h => intro s; exact ⟨_, rfl⟩
  | seq a b iha ihb =>
      intro s
      rw [errorFree, Bool.and_eq_true] at hd
      obtain ⟨s1, ha⟩ := iha hd.1 s
      obtain ⟨s2, hb⟩ := ihb hd.2 s1
      exact ⟨s2, by rw [runDir_seq_ok ha, hb]⟩
  | ifdefBlock n body ih =>
      intro s
      rw [errorFree] at hd
      rw [runDir_ifdef_eq]
      by_cases h : isDefined n s
      · obtain ⟨s2, hb⟩ := ih hd s
        exact ⟨s2, by rw [if_pos h, hb]⟩
      · exact ⟨s, by rw [if_neg h]⟩
  | ifndefBlock n body ih =>
      intro s
      rw [errorFree] at hd
      rw [runDir_ifndef_eq]
      by_cases h : isDefined n s
      · exact ⟨s, by rw [if_pos h]⟩
      · obtain ⟨s2, hb⟩ := ih hd s
        exact ⟨s2, by rw [if_neg h, hb]⟩
  | errorDirective msg => exact absurd hd (by rw [errorFree]; exact Bool.false_ne_true)

/-! ### The claims -/

/-- Claim C3: on a Unix-like platform (and on a fresh inclusion, i.e. the
include guard not yet defined, which is what it means for the configuration
step to run), every feature flag that is undefined beforehand is defined
afterwards with its documented default: `_LARGEFILE64_SOURCE=1`,
`_FILE_OFFSET_BITS=64`, `_LFS64_LARGEFILE=1`. -/
theorem unix_flags_default_when_undefined (s : PPState)
    (hu : unixLike s = true) (hg : isDefined "zlib_shim_h" s = false) :
    (valueOf "_LARGEFILE64_SOURCE" s = none →
      valueOf "_LARGEFILE64_SOURCE" (processShim s) = some (some 1)) ∧
    (valueOf "_FILE_OFFSET_BITS" s = none →
      valueOf "_FILE_OFFSET_BITS" (processShim s) = some (some 64)) ∧
    (valueOf "_LFS64_LARGEFILE" s = none →
      valueOf "_LFS64_LARGEFILE" (processShim s) = some (some 1)) := by
  refine ⟨fun hv => ?_, fun hv => ?_, fun hv => ?_⟩ <;>
    rw [processShim_char, if_neg (by simp [hg]), if_pos hu]
  · rw [valueOf_unixBody_L64,
      if_neg (by rw [isDefined_eq_isSome_valueOf, hv]; exact Bool.false_ne_true)]
  · rw [valueOf_unixBody_FOB,
      if_neg (by rw [isDefined_eq_isSome_valueOf, hv]; exact Bool.false_ne_true)]
  · rw [valueOf_unixBody_LFS64,
      if_neg (by rw [isDefined_eq_isSome_valueOf, hv]; exact Bool.false_ne_true)]

/-- Witness for C3 at the fresh Unix-like state. -/
theorem unix_flags_default_when_undefined_witness :
    valueOf "_LARGEFILE64_SOURCE" (processShim sFreshUnix) = some (some 1) ∧
    valueOf "_FILE_OFFSET_BITS" (processShim sFreshUnix) = some (some 64) ∧
    valueOf "_LFS64_LARGEFILE" (processShim sFreshUnix) = some (some 1) :=
  ⟨(unix_flags_default_when_undefined sFreshUnix (by decide) (by decide)).1
      (by decide),
    (unix_flags_default_when_undefined sFreshUnix (by decide) (by decide)).2.1
      (by decide),
    (unix_flags_default_when_undefined sFreshUnix (by decide) (by decide)).2.2
      (by decide)⟩

/-- Claim C5: processing the shim is idempotent — a second run (on any
platform, from any initial flag state) leaves the entire resulting state,
and in particular the three feature-flag values, unchanged, because the
include guard defined by the first run short-circuits the second. -/
theorem processShim_idempotent (s : PPState) :
    processShim (processShim s) = processShim s :=
  processShim_of_guard_defined (isDefined_guard_processShim s)

/-- Witness for C5 at the fresh Unix-like state. -/
theorem processShim_idempotent_witness :
    processShim (processShim sFreshUnix) = processShim sFreshUnix :=
  processShim_idempotent sFreshUnix

/-- Claim C6: the configuration step cannot fail: the directive language
has a failing construct (`#error`), the shim contains none of it, and on
every platform and every initial macro state running the shim terminates
normally with `Except.ok`, never with `Except.error`. -/
theorem processShim_never_fails (s : PPState) :
    errorFree shimSource = true ∧
    runDir shimSource s = Except.ok (processShim s) ∧
    ∀ msg, runDir shimSource s ≠ Except.error msg := by
  refine ⟨rfl, ?_, ?_⟩
  · rw [runDir_shim_eq, processShim_char]
  · intro msg h
    rw [runDir_shim_eq] at h
    exact Except.noConfusion h

/-- Witness for C6 at the empty non-Unix state. -/
theorem processShim_never_fails_witness :
    runDir shimSource sNonUnix = Except.ok (processShim sNonUnix) :=
  (processShim_never_fails sNonUnix).2.1

/-- Claim C8: on every platform, processing the shim leaves the include
guard `zlib_shim_h` defined, and whenever the guard is already defined a
(subsequent) processing of the shim is skipped entirely, changing nothing. -/
theorem guard_defined_on_all_platforms (s : PPState) :
    isDefined "zlib_shim_h" (processShim s) = true ∧
    (isDefined "zlib_shim_h" s = true → processShim s = s) :=
  ⟨isDefined_guard_processShim s, fun h => processShim_of_guard_defined h⟩

/-- Witness for C8: the guard is defined even on the non-Unix path, and a
state that already carries the guard is left untouched. -/
theorem guard_defined_on_all_platforms_witness :
    isDefined "zlib_shim_h" (processShim sNonUnix) = true ∧
    processShim { defs := [("zlib_shim_h", none)], trace := [] } =
      { defs := [("zlib_shim_h", none)], trace := [] } :=
  ⟨(guard_defined_on_all_platforms sNonUnix).1,
    (guard_defined_on_all_platforms
      { defs := [("zlib_shim_h", none)], trace := [] }).2 (by decide)⟩

/-- Claim C9: on a Unix-like platform (fresh inclusion), the shim also
imports `stdio.h`, so downstream consumers receive the C standard I/O
declarations in addition to the compression library's interface. -/
theorem unix_stdio_included (s : PPState) (hu : unixLike s = true)
    (hg : isDefined "zlib_shim_h" s = false) :
    Event.included "stdio.h" ∈ (processShim s).trace := by
  rw [processShim_trace]
  simp [hu, hg]

/-- Witness for C9 at the fresh Unix-like state. -/
theorem unix_stdio_included_witness :
    Event.included "stdio.h" ∈ (processShim sFreshUnix).trace :=
  unix_stdio_included sFreshUnix (by decide) (by decide)

/-- Claim C10: on a Unix-like platform (fresh inclusion), after the
configuration step each of the three feature flags is defined — with its
preserved prior value or its default — whatever the initial flag state. -/
theorem unix_flags_all_defined_after (s : PPState) (hu : unixLike s = true)
    (hg : isDefined "zlib_shim_h" s = false) :
    ∀ f ∈ largeFileFlags, isDefined f (processShim s) = true := by
  intro f hf
  simp only [largeFileFlags, List.mem_cons, List.not_mem_nil, or_false] at hf
  rcases hf with rfl | rfl | rfl <;>
    rw [processShim_char, if_neg (by simp [hg]), if_pos hu,
      isDefined_eq_isSome_valueOf]
  · rw [valueOf_unixBody_L64]
    by_cases h : isDefined "_LARGEFILE64_SOURCE" s
    · rw [if_pos h, ← isDefined_eq_isSome_valueOf]; exact h
    · rw [if_neg h]; rfl
  · rw [valueOf_unixBody_FOB]
    by_cases h : isDefined "_FILE_OFFSET_BITS" s
    · rw [if_pos h, ← isDefined_eq_isSome_valueOf]; exact h
    · rw [if_neg h]; rfl
  · rw [valueOf_unixBody_LFS64]
    by_cases h : isDefined "_LFS64_LARGEFILE" s
    · rw [if_pos h, ← isDefined_eq_isSome_valueOf]; exact h
    · rw [if_neg h]; rfl

/-- Witness for C10: starting from a Unix-like state where only
`_FILE_OFFSET_BITS` is pre-defined, all three flags are defined afterward. -/
theorem unix_flags_all_defined_after_witness :
    isDefined "_LARGEFILE64_SOURCE" (processShim sOffsetBits32) = true ∧
    isDefined "_FILE_OFFSET_BITS" (processShim sOffsetBits32) = true ∧
    isDefined "_LFS64_LARGEFILE" (processShim sOffsetBits32) = true :=
  ⟨unix_flags_all_defined_after sOffsetBits32 (by decide) (by decide)
      "_LARGEFILE64_SOURCE" (by decide),
    unix_flags_all_defined_after sOffsetBits32 (by decide) (by decide)
      "_FILE_OFFSET_BITS" (by decide),
    unix_flags_all_defined_after sOffsetBits32 (by decide) (by decide)
      "_LFS64_LARGEFILE" (by decide)⟩

/-- Claim C2: on a Unix-like platform, a feature flag already defined with
value `v` before the shim is processed still has value `v` afterward; in
the concrete scenario where `_FILE_OFFSET_BITS` is pre-defined as `32` it
stays `32` while the other two flags still receive their defaults. -/
theorem unix_flag_values_preserved :
    (∀ (s : PPState) (f : String) (v : Option Nat), unixLike s = true →
      f ∈ largeFileFlags → valueOf f s = some v →
      valueOf f (processShim s) = some v) ∧
    valueOf "_FILE_OFFSET_BITS" (processShim sOffsetBits32) = some (some 32) ∧
    valueOf "_LARGEFILE64_SOURCE" (processShim sOffsetBits32) = some (some 1) ∧
    valueOf "_LFS64_LARGEFILE" (processShim sOffsetBits32) = some (some 1) := by
  refine ⟨?_, by decide, by decide, by decide⟩
  intro s f v hu hf hv
  have hd : isDefined f s = true := by
    rw [isDefined_eq_isSome_valueOf, hv]; rfl
  simp only [largeFileFlags, List.mem_cons, List.not_mem_nil, or_false] at hf
  rw [processShim_char]
  by_cases h1 : isDefined "zlib_shim_h" s
  · rw [if_pos h1]; exact hv
  · rw [if_neg h1, if_pos hu]
    rcases hf with rfl | rfl | rfl
    · rw [valueOf_unixBody_L64, if_pos hd]; exact hv
    · rw [valueOf_unixBody_FOB, if_pos hd]; exact hv
    · rw [valueOf_unixBody_LFS64, if_pos hd]; exact hv

/-- Witness for C2 at the state with `_FILE_OFFSET_BITS` pre-defined as 32. -/
theorem unix_flag_values_preserved_witness :
    valueOf "_FILE_OFFSET_BITS" (processShim sOffsetBits32) = some (some 32) :=
  unix_flag_values_preserved.1 sOffsetBits32 "_FILE_OFFSET_BITS" (some 32)
    (by decide) (by decide) (by decide)

/-- Claim C4: on a non-Unix-like platform the configuration is inert: none
of the three feature flags changes value, no header is included, and no
define event for any of the three flags is recorded (so no compression
library declarations are exposed). -/
theorem nonunix_configuration_noop (s : PPState) (hu : unixLike s = false) :
    (∀ f ∈ largeFileFlags, valueOf f (processShim s) = valueOf f s) ∧
    (∀ h, Event.included h ∈ (processShim s).trace ↔
      Event.included h ∈ s.trace) ∧
    (∀ f v, f ∈ largeFileFlags →
      (Event.defined f v ∈ (processShim s).trace ↔
        Event.defined f v ∈ s.trace)) := by
  refine ⟨?_, ?_, ?_⟩
  · intro f hf
    simp only [largeFileFlags, List.mem_cons, List.not_mem_nil, or_false] at hf
    rw [processShim_char]
    by_cases h1 : isDefined "zlib_shim_h" s
    · rw [if_pos h1]
    · rw [if_neg h1, if_neg (by simp [hu])]
      rcases hf with rfl | rfl | rfl <;> exact valueOf_addDefine_ne (by decide) _ s
  · intro h
    rw [processShim_trace]
    by_cases h1 : isDefined "zlib_shim_h" s
    · simp [h1]
    · simp [h1, hu]
  · intro f v hf
    simp only [largeFileFlags, List.mem_cons, List.not_mem_nil, or_false] at hf
    rw [processShim_trace]
    by_cases h1 : isDefined "zlib_shim_h" s
    · simp [h1]
    · rcases hf with rfl | rfl | rfl <;> simp [h1, hu]

/-- Witness for C4 at the empty non-Unix state. -/
theorem nonunix_configuration_noop_witness :
    valueOf "_FILE_OFFSET_BITS" (processShim sNonUnix) =
      valueOf "_FILE_OFFSET_BITS" sNonUnix ∧
    (Event.included "zlib.h" ∈ (processShim sNonUnix).trace ↔
      Event.included "zlib.h" ∈ sNonUnix.trace) :=
  ⟨(nonunix_configuration_noop sNonUnix (by decide)).1 "_FILE_OFFSET_BITS"
      (by decide),
    (nonunix_configuration_noop sNonUnix (by decide)).2.1 "zlib.h"⟩

/-- Claim C7: the shim's only effect on the macro table is on the include
guard and the three feature flags (every other macro keeps its value); the
only macros it ever defines with a value (constants) are the three feature
flags; every define event is for the guard or a flag; and on the Unix-like
path it re-exports the compression library by including `zlib.h`. -/
theorem shim_output_frame (s : PPState) :
    (∀ n, n ≠ "zlib_shim_h" → n ∉ largeFileFlags →
      valueOf n (processShim s) = valueOf n s) ∧
    (∀ n v, Event.defined n (some v) ∈ (processShim s).trace →
      Event.defined n (some v) ∈ s.trace ∨ n ∈ largeFileFlags) ∧
    (∀ n w, Event.defined n w ∈ (processShim s).trace →
      Event.defined n w ∈ s.trace ∨ n = "zlib_shim_h" ∨ n ∈ largeFileFlags) ∧
    (unixLike s = true → isDefined "zlib_shim_h" s = false →
      Event.included "zlib.h" ∈ (processShim s).trace) := by
  refine ⟨?_, ?_, ?_, ?_⟩
  · intro n hg hn
    simp only [largeFileFlags, List.mem_cons, List.not_mem_nil, or_false,
      not_or] at hn
    rw [processShim_char]
    by_cases h1 : isDefined "zlib_shim_h" s
    · rw [if_pos h1]
    · rw [if_neg h1]
      by_cases h2 : unixLike s
      · rw [if_pos h2]
        exact valueOf_unixBody_other hg hn.1 hn.2.1 hn.2.2 s
      · rw [if_neg (by simp [h2])]
        exact valueOf_addDefine_ne hg _ s
  · intro n v hmem
    rw [processShim_trace] at hmem
    rcases List.mem_append.mp hmem with hl | hr
    · exact Or.inl hl
    · right
      split_ifs at hr <;> simp [largeFileFlags] at hr ⊢ <;> tauto
  · intro n w hmem
    rw [processShim_trace] at hmem
    rcases List.mem_append.mp hmem with hl | hr
    · exact Or.inl hl
    · right
      split_ifs at hr <;> simp [largeFileFlags] at hr ⊢ <;> tauto
  · intro hu hg
    rw [processShim_trace]
    simp [hu, hg]

/-- Witness for C7: an unrelated macro is untouched and `zlib.h` is
re-exported on the fresh Unix-like state. -/
theorem shim_output_frame_witness :
    valueOf "NDEBUG" (processShim sFreshUnix) = valueOf "NDEBUG" sFreshUnix ∧
    Event.included "zlib.h" ∈ (processShim sFreshUnix).trace :=
  ⟨(shim_output_frame sFreshUnix).1 "NDEBUG" (by decide) (by decide),
    (shim_output_frame sFreshUnix).2.2.2 (by decide) (by decide)⟩

/-- Claim C1 (falsified, against the code): on the Unix-like path the shim
imports `stdio.h` and `zlib.h` BEFORE defining the three large-file feature
macros, so the compression library's headers are preprocessed without the
configuration the shim itself documents as governing them: the full event
trace from a fresh Unix-like state puts `included "zlib.h"` (position 2)
ahead of every flag definition (positions 3, 4, 5). -/
theorem shim_zlib_included_before_flag_defines :
    (processShim sFreshUnix).trace =
      [Event.defined "zlib_shim_h" none, Event.included "stdio.h",
        Event.included "zlib.h", Event.defined "_LARGEFILE64_SOURCE" (some 1),
        Event.defined "_FILE_OFFSET_BITS" (some 64),
        Event.defined "_LFS64_LARGEFILE" (some 1)] ∧
    (processShim sFreshUnix).trace[2]? = some (Event.included "zlib.h") ∧
    (processShim sFreshUnix).trace[3]? =
      some (Event.defined "_LARGEFILE64_SOURCE" (some 1)) ∧
    (processShim sFreshUnix).trace[4]? =
      some (Event.defined "_FILE_OFFSET_BITS" (some 64)) ∧
    (processShim sFreshUnix).trace[5]? =
      some (Event.defined "_LFS64_LARGEFILE" (some 1)) := by
  refine ⟨by decide, by decide, by decide, by decide, by decide⟩

end ZlibShim
